import Mathlib

/-!
Verification of the GEM communication handler (`src/secsgem/gem/handler.py`):
the communication state machine, its timer-driven handshake actions, the
inbound-packet dispatcher and the wait-for-communicating gate, embedded
shallowly as pure Lean functions over an explicit handler state.
-/

set_option maxHeartbeats 1000000

namespace Secsgem

/-- States of the communication state machine, exactly the state names
appearing in the Fysom configuration of `GemHandler.__init__`. -/
inductive CommState where
  | DISABLED
  | ENABLED
  | NOT_COMMUNICATING
  | EQUIPMENT_INITIATED_CONNECT
  | WAIT_CRA
  | WAIT_DELAY
  | COMMUNICATING
  | HOST_INITIATED_CONNECT
  | WAIT_CR_FROM_HOST
  deriving DecidableEq, Fintype

/-- Events of the communication state machine, exactly the event names of the
Fysom configuration in `GemHandler.__init__`. -/
inductive FEvent where
  | enable
  | disable
  | select
  | communicationreqfail
  | delayexpired
  | messagereceived
  | s1f14received
  | communicationfail
  | s1f13received
  deriving DecidableEq, Fintype

/-- A `threading.Timer`: one pending delayed callback with its duration and a
cancellation flag (`cancel()` sets the flag). The callback is fixed by the
timer's role, so it is not stored. -/
structure Timer where
  duration : Nat
  cancelled : Bool
  deriving DecidableEq

/-- The two timer roles of the handler: `waitCRATimer` and `commDelayTimer`. -/
inductive TimerRole where
  | waitCRA
  | commDelay
  deriving DecidableEq

/-- Bodies of the SECS messages the handler builds: the empty S1F13 request of
the host role, the `[MDLN, SOFTREV]` request of the equipment role, the S1F14
body `{COMMACK, DATA}`, and the S9F5 body holding the encoded header of the
offending message. -/
inductive Payload where
  | empty
  | strList (items : List String)
  | commackData (commack : Nat) (data : List String)
  | headerBytes (stream function system : Nat) (requireResponse : Bool)
  deriving DecidableEq

/-- The header fields of an HSMS packet that `_on_hsms_packet_received` reads:
stream, function, system bytes (transaction identifier) and the
require-response flag. -/
structure PacketHeader where
  stream : Nat
  function : Nat
  system : Nat
  requireResponse : Bool
  deriving DecidableEq

/-- An inbound HSMS packet as seen by the dispatcher. -/
structure Packet where
  header : PacketHeader
  deriving DecidableEq

/-- One message handed to the transport: `send_response` records the system
bytes of the message it answers in `replyTo`; `send_stream_function` records
`none`. -/
structure SentMessage where
  stream : Nat
  function : Nat
  body : Payload
  replyTo : Option Nat
  deriving DecidableEq

/-- Observable actions of the handler, recorded in order in a trace: message
sends, timer starts and cancellations, the `fire_event` notification, the
`event.set()` release of a waiter, the thread spawn for a registered callback,
and the steps of `waitfor_communicating` (append its event to the wait list,
test the state, block on the event, remove the event). -/
inductive Action where
  | send (stream function : Nat) (body : Payload) (replyTo : Option Nat)
  | timerStarted (role : TimerRole) (duration : Nat)
  | timerCancelled (role : TimerRole)
  | eventFired (name : String)
  | eventSet (evId : Nat)
  | spawnHandler (callbackIndex : String)
  | waitAppended (evId : Nat)
  | commChecked (result : Bool)
  | waitBlocked (result : Bool)
  | waitRemoved (evId : Nat)
  deriving DecidableEq

/-- The mutable state of a `GemHandler`: the current communication state, the
configuration fields set in `__init__` (role flag, identity strings, COMMACK
code of `on_commack_requested`, the transport's T3 response-timeout and the
`commDelayTimeout`), the two timers, the `waitEventList` (events identified by
number), the registered callback keys, and the observable output logs. -/
structure GemHandler where
  current : CommState
  isHost : Bool
  MDLN : String
  SOFTREV : String
  commackCode : Nat
  T3 : Nat
  commDelayTimeout : Nat
  waitCRATimer : Option Timer
  commDelayTimer : Option Timer
  waitEventList : List Nat
  callbacks : List String
  sent : List SentMessage
  firedEvents : List String
  setEvents : List Nat
  trace : List Action
  deriving DecidableEq

/-- The callback dictionary key `"s" + str(stream) + "f" + str(function)`
built by `_on_hsms_packet_received` and `register_callback`. -/
def callbackIndex (stream function : Nat) : String :=
  "s" ++ toString stream ++ "f" ++ toString function

/-- The overridable accept/reject decision `on_commack_requested`; the base
class returns 0 (accept), modelled by the `commackCode` field whose default is
0 in `initHandler`. -/
def on_commack_requested (h : GemHandler) : Nat :=
  h.commackCode

/-- Record an observable action in the trace. -/
def logAction (h : GemHandler) (a : Action) : GemHandler :=
  { h with trace := h.trace ++ [a] }

/-- Model of `self.send_response(msg, system)`: hand the built message to the
transport, correlated to the answered message by its system bytes. -/
def send_response (h : GemHandler) (stream function : Nat) (body : Payload)
    (system : Nat) : GemHandler :=
  { h with sent := h.sent ++ [⟨stream, function, body, some system⟩],
           trace := h.trace ++ [.send stream function body (some system)] }

/-- Model of `self.send_stream_function(msg)`: hand the built message to the
transport with no correlation. -/
def send_stream_function (h : GemHandler) (stream function : Nat)
    (body : Payload) : GemHandler :=
  { h with sent := h.sent ++ [⟨stream, function, body, none⟩],
           trace := h.trace ++ [.send stream function body none] }

/-- Model of `self.fire_event(name, ...)`: notify external observers. -/
def fire_event (h : GemHandler) (name : String) : GemHandler :=
  { h with firedEvents := h.firedEvents ++ [name],
           trace := h.trace ++ [.eventFired name] }

/-- Entry action `_on_state_wait_cra`: start the `waitCRATimer` with the
transport's T3 response-timeout, then send the S1F13 handshake-request (empty
payload for the host role, `[MDLN, SOFTREV]` for the equipment role). -/
def on_state_wait_cra (h : GemHandler) : GemHandler :=
  let h1 : GemHandler :=
    { h with waitCRATimer := some ⟨h.T3, false⟩,
             trace := h.trace ++ [.timerStarted .waitCRA h.T3] }
  send_stream_function h1 1 13
    (if h1.isHost then .empty else .strList [h1.MDLN, h1.SOFTREV])

/-- Entry action `_on_state_wait_delay`: start the `commDelayTimer` with the
configured `commDelayTimeout`. -/
def on_state_wait_delay (h : GemHandler) : GemHandler :=
  { h with commDelayTimer := some ⟨h.commDelayTimeout, false⟩,
           trace := h.trace ++ [.timerStarted .commDelay h.commDelayTimeout] }

/-- Exit action `_on_state_leave_wait_cra`: cancel the `waitCRATimer` when one
exists (idempotent). -/
def on_state_leave_wait_cra (h : GemHandler) : GemHandler :=
  match h.waitCRATimer with
  | none => h
  | some t =>
      { h with waitCRATimer := some { t with cancelled := true },
               trace := h.trace ++ [.timerCancelled .waitCRA] }

/-- Exit action `_on_state_leave_wait_delay`: cancel the `commDelayTimer` when
one exists (idempotent). -/
def on_state_leave_wait_delay (h : GemHandler) : GemHandler :=
  match h.commDelayTimer with
  | none => h
  | some t =>
      { h with commDelayTimer := some { t with cancelled := true },
               trace := h.trace ++ [.timerCancelled .commDelay] }

/-- Entry action `_on_state_communicating`: fire the `handler_communicating`
notification, then `set()` every event currently in `waitEventList`. -/
def on_state_communicating (h : GemHandler) : GemHandler :=
  let h1 := fire_event h "handler_communicating"
  { h1 with setEvents := h1.setEvents ++ h1.waitEventList,
            trace := h1.trace ++ h1.waitEventList.map Action.eventSet }

/-- The transition table of the Fysom configuration in `GemHandler.__init__`:
destination of an event fired in a state, `none` when the event's source list
does not contain the state. -/
def transitionDst : CommState → FEvent → Option CommState
  | .DISABLED, .enable => some .ENABLED
  | .ENABLED, .disable => some .DISABLED
  | .NOT_COMMUNICATING, .disable => some .DISABLED
  | .COMMUNICATING, .disable => some .DISABLED
  | .EQUIPMENT_INITIATED_CONNECT, .disable => some .DISABLED
  | .WAIT_DELAY, .disable => some .DISABLED
  | .WAIT_CRA, .disable => some .DISABLED
  | .HOST_INITIATED_CONNECT, .disable => some .DISABLED
  | .WAIT_CR_FROM_HOST, .disable => some .DISABLED
  | .NOT_COMMUNICATING, .select => some .EQUIPMENT_INITIATED_CONNECT
  | .WAIT_CRA, .communicationreqfail => some .WAIT_DELAY
  | .WAIT_DELAY, .delayexpired => some .WAIT_CRA
  | .WAIT_DELAY, .messagereceived => some .WAIT_CRA
  | .WAIT_CRA, .s1f14received => some .COMMUNICATING
  | .COMMUNICATING, .communicationfail => some .NOT_COMMUNICATING
  | .WAIT_CR_FROM_HOST, .s1f13received => some .COMMUNICATING
  | .WAIT_DELAY, .s1f13received => some .COMMUNICATING
  | .WAIT_CRA, .s1f13received => some .COMMUNICATING
  | _, _ => none

/-- The `autoforward` list of the Fysom configuration: transient states and
their forward destinations. -/
def autoforwardDst : CommState → Option CommState
  | .ENABLED => some .NOT_COMMUNICATING
  | .EQUIPMENT_INITIATED_CONNECT => some .WAIT_CRA
  | .HOST_INITIATED_CONNECT => some .WAIT_CR_FROM_HOST
  | _ => none

/-- Exit callbacks registered in the Fysom configuration, keyed by the state
being left: `onleaveWAIT_CRA` and `onleaveWAIT_DELAY`. -/
def leaveActions (h : GemHandler) : GemHandler :=
  match h.current with
  | .WAIT_CRA => on_state_leave_wait_cra h
  | .WAIT_DELAY => on_state_leave_wait_delay h
  | _ => h

/-- Entry callbacks registered in the Fysom configuration, keyed by the state
being entered: `onWAIT_CRA`, `onWAIT_DELAY` and `onCOMMUNICATING`. -/
def enterActions (h : GemHandler) (dst : CommState) : GemHandler :=
  match dst with
  | .WAIT_CRA => on_state_wait_cra h
  | .WAIT_DELAY => on_state_wait_delay h
  | .COMMUNICATING => on_state_communicating h
  | _ => h

/-- Commit the new current state. -/
def setCurrent (h : GemHandler) (s : CommState) : GemHandler :=
  { h with current := s }

/-- Modelled from the spec: one committed transition of the Fysom engine
(`secsgem.common.fysom.Fysom` is not under src/). Per the spec's state-machine
component, a transition runs the left state's exit actions, commits the new
state, and runs the entered state's entry actions. -/
def doTransition (h : GemHandler) (dst : CommState) : GemHandler :=
  enterActions (setCurrent (leaveActions h) dst) dst

/-- Modelled from the spec: firing an event on the Fysom engine (the engine is
not under src/). A guarded transition fires only when the event's source list
contains the current state (an invalid event raises and leaves the handler
unchanged); transient destinations auto-forward once more, with the usual
exit/entry actions. No auto-forward destination is itself transient. -/
def fireEvent (h : GemHandler) (e : FEvent) : GemHandler :=
  match transitionDst h.current e with
  | none => h
  | some dst =>
      let h1 := doTransition h dst
      match autoforwardDst dst with
      | none => h1
      | some d2 => doTransition h1 d2

/-- Timer callback `_on_wait_cra_timeout`: fires `communicationreqfail`. -/
def on_wait_cra_timeout (h : GemHandler) : GemHandler :=
  fireEvent h .communicationreqfail

/-- Timer callback `_on_wait_comm_delay_timeout`: fires `delayexpired`. -/
def on_wait_comm_delay_timeout (h : GemHandler) : GemHandler :=
  fireEvent h .delayexpired

/-- The dispatcher `_on_hsms_packet_received`: decode and log (no observable
effect), then branch on the current communication state exactly as the
`if/elif` chain of the source does. -/
def on_hsms_packet_received (h : GemHandler) (p : Packet) : GemHandler :=
  if h.current = .WAIT_CRA then
    if p.header.stream = 1 ∧ p.header.function = 13 then
      let body : Payload :=
        if h.isHost then .commackData (on_commack_requested h) []
        else .commackData (on_commack_requested h) [h.MDLN, h.SOFTREV]
      let h1 := send_response h 1 14 body p.header.system
      fireEvent h1 .s1f13received
    else if p.header.stream = 1 ∧ p.header.function = 14 then
      fireEvent h .s1f14received
    else h
  else if h.current = .WAIT_DELAY then
    h
  else if h.current = .COMMUNICATING then
    if callbackIndex p.header.stream p.header.function ∈ h.callbacks then
      logAction h (.spawnHandler (callbackIndex p.header.stream p.header.function))
    else if p.header.requireResponse then
      send_response h 9 5
        (.headerBytes p.header.stream p.header.function p.header.system
          p.header.requireResponse)
        p.header.system
    else h
  else h

/-- Model of `waitfor_communicating(timeout)`. The fresh `threading.Event` is
identified by `evId`; `waitOutcome` is the value `event.wait(timeout)` returns
when the call has to block (`true` when the event was set before the timeout,
`false` on timeout). The source appends the event to `waitEventList`, then
tests for COMMUNICATING (returning `true` at once after removing the entry),
otherwise blocks and removes the entry before returning the wait result. -/
def waitfor_communicating (h : GemHandler) (evId : Nat) (waitOutcome : Bool) :
    GemHandler × Bool :=
  let h1 : GemHandler :=
    { h with waitEventList := h.waitEventList ++ [evId],
             trace := h.trace ++ [.waitAppended evId] }
  if h1.current = .COMMUNICATING then
    let h2 : GemHandler :=
      { h1 with trace := h1.trace ++ [.commChecked true] }
    ({ h2 with waitEventList := h2.waitEventList.erase evId,
               trace := h2.trace ++ [.waitRemoved evId] }, true)
  else
    let h2 : GemHandler :=
      { h1 with trace := h1.trace ++ [.commChecked false, .waitBlocked waitOutcome] }
    ({ h2 with waitEventList := h2.waitEventList.erase evId,
               trace := h2.trace ++ [.waitRemoved evId] }, waitOutcome)

/-- The handler state after `GemHandler.__init__`: state DISABLED, no timers,
empty wait list, the two pre-registered callbacks (S1F1 and S1F13), empty
output logs. The role flag, identity strings, COMMACK code, T3 and the delay
timeout are configuration parameters (the base class initialises them to
`True`, `"secsgem"`, `"0.0.3"`, `0` and `10`; subclasses and callers may
override them). -/
def initHandler (isHost : Bool) (T3 commDelayTimeout : Nat)
    (MDLN SOFTREV : String) (commackCode : Nat) : GemHandler :=
  { current := .DISABLED
    isHost := isHost
    MDLN := MDLN
    SOFTREV := SOFTREV
    commackCode := commackCode
    T3 := T3
    commDelayTimeout := commDelayTimeout
    waitCRATimer := none
    commDelayTimer := none
    waitEventList := []
    callbacks := [callbackIndex 1 1, callbackIndex 1 13]
    sent := []
    firedEvents := []
    setEvents := []
    trace := [] }

/-! Concrete fixtures: a base-configuration handler driven through the
handshake states, and sample packets. -/

/-- A freshly constructed handler with the base-class configuration. -/
def hDisabled : GemHandler := initHandler true 3 10 "secsgem" "0.0.3" 0

/-- After `enable()`: ENABLED auto-forwards to NOT_COMMUNICATING. -/
def hNotComm : GemHandler := fireEvent hDisabled .enable

/-- After the transport selects: EQUIPMENT_INITIATED_CONNECT auto-forwards to
WAIT_CRA, starting the handshake timer and sending S1F13. -/
def hWaitCRA : GemHandler := fireEvent hNotComm .select

/-- After the handshake timer fired: WAIT_DELAY with the delay timer live. -/
def hWaitDelay : GemHandler := fireEvent hWaitCRA .communicationreqfail

/-- After S1F14 was received in WAIT_CRA: COMMUNICATING. -/
def hComm : GemHandler := fireEvent hWaitCRA .s1f14received

/-- An inbound S1F13 handshake-request packet. -/
def pS1F13 : Packet := ⟨⟨1, 13, 42, true⟩⟩

/-- An inbound packet with no registered callback that requires a response. -/
def pS5F1 : Packet := ⟨⟨5, 1, 77, true⟩⟩

/-- An inbound packet with no registered callback and no response required. -/
def pS5F1n : Packet := ⟨⟨5, 1, 77, false⟩⟩

/-- C9: an inbound message delivered in state WAIT_DELAY causes no observable
action at all: the dispatcher returns the handler unchanged (no transition, no
reply, no timer change), for every stream and function. -/
theorem claim_C9 (h : GemHandler) (p : Packet)
    (hcur : h.current = CommState.WAIT_DELAY) :
    on_hsms_packet_received h p = h := by
  simp [on_hsms_packet_received, hcur]

/-- C9 witness: the concrete WAIT_DELAY handler ignores an inbound S1F13. -/
theorem claim_C9_witness :
    hWaitDelay.current = CommState.WAIT_DELAY
    ∧ on_hsms_packet_received hWaitDelay pS1F13 = hWaitDelay :=
  ⟨by decide, claim_C9 hWaitDelay pS1F13 (by decide)⟩

/-- C6: in COMMUNICATING, a message whose callback index is unregistered makes
the dispatcher send exactly one S9F5 reply carrying the encoded header of the
offending message and correlated by its system bytes when a response was
required, and nothing at all otherwise; the state is unchanged either way. -/
theorem claim_C6 (h : GemHandler) (p : Packet)
    (hcur : h.current = CommState.COMMUNICATING)
    (hcb : callbackIndex p.header.stream p.header.function ∉ h.callbacks) :
    (on_hsms_packet_received h p).sent
      = h.sent ++ (if p.header.requireResponse then
          [⟨9, 5, .headerBytes p.header.stream p.header.function p.header.system
              p.header.requireResponse, some p.header.system⟩]
        else [])
    ∧ (on_hsms_packet_received h p).current = h.current := by
  cases hr : p.header.requireResponse <;>
    simp [on_hsms_packet_received, hcur, hcb, hr, send_response]

/-- C6 witness: a concrete COMMUNICATING handler answers an unregistered S5F1
that requires a response with one correlated S9F5, and stays COMMUNICATING. -/
theorem claim_C6_witness :
    (hComm.current = CommState.COMMUNICATING
     ∧ callbackIndex pS5F1.header.stream pS5F1.header.function ∉ hComm.callbacks)
    ∧ ((on_hsms_packet_received hComm pS5F1).sent
        = hComm.sent ++ (if pS5F1.header.requireResponse then
            [⟨9, 5, .headerBytes pS5F1.header.stream pS5F1.header.function
                pS5F1.header.system pS5F1.header.requireResponse,
              some pS5F1.header.system⟩]
          else [])
       ∧ (on_hsms_packet_received hComm pS5F1).current = hComm.current) :=
  ⟨⟨by decide, by decide⟩, claim_C6 hComm pS5F1 (by decide) (by decide)⟩

/-- C3: in WAIT_CRA, an inbound S1F13 makes the dispatcher send exactly one
S1F14 reply — COMMACK from `on_commack_requested` (0 by default), DATA
`[MDLN, SOFTREV]` for the equipment role and empty for the host role —
correlated by the request's system bytes, and then the state machine
transitions to COMMUNICATING. -/
theorem claim_C3 (h : GemHandler) (p : Packet)
    (hcur : h.current = CommState.WAIT_CRA)
    (hs : p.header.stream = 1) (hf : p.header.function = 13) :
    (on_hsms_packet_received h p).sent
      = h.sent ++ [⟨1, 14,
          .commackData (on_commack_requested h)
            (if h.isHost then [] else [h.MDLN, h.SOFTREV]),
          some p.header.system⟩]
    ∧ (on_hsms_packet_received h p).current = CommState.COMMUNICATING := by
  cases ht : h.waitCRATimer <;> cases hh : h.isHost <;>
    simp [on_hsms_packet_received, hcur, hs, hf, hh, ht, send_response,
      on_commack_requested, fireEvent, transitionDst, autoforwardDst,
      doTransition, leaveActions, enterActions, setCurrent,
      on_state_leave_wait_cra, on_state_communicating, fire_event]

/-- C3 witness: the concrete WAIT_CRA host handler answers S1F13 with one
S1F14 `{COMMACK 0, DATA []}` correlated to system bytes 42 and reaches
COMMUNICATING. -/
theorem claim_C3_witness :
    (hWaitCRA.current = CommState.WAIT_CRA
     ∧ pS1F13.header.stream = 1 ∧ pS1F13.header.function = 13)
    ∧ ((on_hsms_packet_received hWaitCRA pS1F13).sent
        = hWaitCRA.sent ++ [⟨1, 14,
            .commackData (on_commack_requested hWaitCRA)
              (if hWaitCRA.isHost then [] else [hWaitCRA.MDLN, hWaitCRA.SOFTREV]),
            some pS1F13.header.system⟩]
       ∧ (on_hsms_packet_received hWaitCRA pS1F13).current
          = CommState.COMMUNICATING) :=
  ⟨⟨by decide, by decide, by decide⟩,
   claim_C3 hWaitCRA pS1F13 (by decide) (by decide) (by decide)⟩

/-- C4: when the handshake timer fires in WAIT_CRA, the state machine enters
WAIT_DELAY and starts the retry-delay timer with the configured delay
duration; when that delay timer then fires, the state machine re-enters
WAIT_CRA, re-starts the handshake timer with the transport's T3
response-timeout, and re-sends the S1F13 handshake-request. -/
theorem claim_C4 (h : GemHandler) (hcur : h.current = CommState.WAIT_CRA) :
    (on_wait_cra_timeout h).current = CommState.WAIT_DELAY
    ∧ (on_wait_cra_timeout h).commDelayTimer = some ⟨h.commDelayTimeout, false⟩
    ∧ (on_wait_comm_delay_timeout (on_wait_cra_timeout h)).current
        = CommState.WAIT_CRA
    ∧ (on_wait_comm_delay_timeout (on_wait_cra_timeout h)).waitCRATimer
        = some ⟨h.T3, false⟩
    ∧ (on_wait_comm_delay_timeout (on_wait_cra_timeout h)).sent
        = h.sent ++ [⟨1, 13,
            if h.isHost then .empty else .strList [h.MDLN, h.SOFTREV], none⟩] := by
  cases ht : h.waitCRATimer <;> cases hh : h.isHost <;>
    simp [on_wait_cra_timeout, on_wait_comm_delay_timeout, hcur, ht, hh,
      fireEvent, transitionDst, autoforwardDst, doTransition, leaveActions,
      enterActions, setCurrent, on_state_leave_wait_cra,
      on_state_leave_wait_delay, on_state_wait_cra, on_state_wait_delay,
      send_stream_function]

/-- C4 witness: on the concrete WAIT_CRA handler the two timer callbacks walk
WAIT_CRA to WAIT_DELAY and back, re-sending the empty host S1F13. -/
theorem claim_C4_witness :
    hWaitCRA.current = CommState.WAIT_CRA
    ∧ ((on_wait_cra_timeout hWaitCRA).current = CommState.WAIT_DELAY
       ∧ (on_wait_cra_timeout hWaitCRA).commDelayTimer
          = some ⟨hWaitCRA.commDelayTimeout, false⟩
       ∧ (on_wait_comm_delay_timeout (on_wait_cra_timeout hWaitCRA)).current
          = CommState.WAIT_CRA
       ∧ (on_wait_comm_delay_timeout (on_wait_cra_timeout hWaitCRA)).waitCRATimer
          = some ⟨hWaitCRA.T3, false⟩
       ∧ (on_wait_comm_delay_timeout (on_wait_cra_timeout hWaitCRA)).sent
          = hWaitCRA.sent ++ [⟨1, 13,
              if hWaitCRA.isHost then .empty
              else .strList [hWaitCRA.MDLN, hWaitCRA.SOFTREV], none⟩]) :=
  ⟨by decide, claim_C4 hWaitCRA (by decide)⟩

/-- A timer role is dead when no timer object exists for it or the existing
one has been cancelled (a fired-and-left timer is also cancelled by the exit
action of its owning state). -/
def timerDead : Option Timer → Bool
  | none => true
  | some t => t.cancelled

/-- C8: a `waitfor_communicating` call removes the wait-list entry it
registered exactly once before returning, on the immediate-success path and on
both blocking outcomes (release and timeout), so the wait list it leaves
behind is exactly the one it found. -/
theorem claim_C8 (h : GemHandler) (evId : Nat) (waitOutcome : Bool)
    (hfresh : evId ∉ h.waitEventList) :
    (waitfor_communicating h evId waitOutcome).1.waitEventList = h.waitEventList
    ∧ (waitfor_communicating h evId waitOutcome).1.trace.count
        (Action.waitRemoved evId)
      = h.trace.count (Action.waitRemoved evId) + 1 := by
  have herase : (h.waitEventList ++ [evId]).erase evId = h.waitEventList := by
    rw [List.erase_append_right _ hfresh]; simp
  by_cases hc : h.current = CommState.COMMUNICATING <;>
    simp [waitfor_communicating, hc, herase, List.count_append, List.count_cons]

/-- C8 witness: a concrete call that times out leaves the wait list as it
found it and records exactly one removal of its entry. -/
theorem claim_C8_witness :
    (9 ∉ hWaitCRA.waitEventList)
    ∧ ((waitfor_communicating hWaitCRA 9 false).1.waitEventList
        = hWaitCRA.waitEventList
       ∧ (waitfor_communicating hWaitCRA 9 false).1.trace.count
           (Action.waitRemoved 9)
         = hWaitCRA.trace.count (Action.waitRemoved 9) + 1) :=
  ⟨by decide, claim_C8 hWaitCRA 9 false (by decide)⟩

/-- True of the actions recording the registration step of
`waitfor_communicating`. -/
def isWaitAppend : Action → Bool
  | .waitAppended _ => true
  | _ => false

/-- True of the actions recording the COMMUNICATING test of
`waitfor_communicating`. -/
def isCommCheck : Action → Bool
  | .commChecked _ => true
  | _ => false

/-- C2 counterexample: on a concrete call of `waitfor_communicating` the
registration of the wait entry is the first recorded action and the test for
state COMMUNICATING the second, so the test does not happen prior to adding
the caller's wait registration as the claim states. -/
theorem claim_C2_counterexample :
    ((waitfor_communicating hDisabled 5 false).1.trace.findIdx isWaitAppend = 0
     ∧ (waitfor_communicating hDisabled 5 false).1.trace.findIdx isCommCheck = 1)
    ∧ ¬ ((waitfor_communicating hDisabled 5 false).1.trace.findIdx isCommCheck
          < (waitfor_communicating hDisabled 5 false).1.trace.findIdx
              isWaitAppend) := by
  decide

/-- C2 amended: `waitfor_communicating` adds the caller's wait registration
first and the test for state COMMUNICATING happens immediately after the
registration (and before any blocking), testing the state current at the
call; when the state is already COMMUNICATING the call returns true at once,
its whole trace being register, check, remove — no blocking action — and the
fresh entry is removed, restoring the wait list. -/
theorem claim_C2_amended (h : GemHandler) (evId : Nat) (waitOutcome : Bool) :
    (∃ rest,
      (waitfor_communicating h evId waitOutcome).1.trace
        = h.trace ++ Action.waitAppended evId
            :: Action.commChecked (decide (h.current = CommState.COMMUNICATING))
            :: rest)
    ∧ (h.current = CommState.COMMUNICATING →
        (waitfor_communicating h evId waitOutcome).2 = true
        ∧ (waitfor_communicating h evId waitOutcome).1.trace
            = h.trace ++ [Action.waitAppended evId, Action.commChecked true,
                Action.waitRemoved evId]
        ∧ (evId ∉ h.waitEventList →
            (waitfor_communicating h evId waitOutcome).1.waitEventList
              = h.waitEventList)) := by
  by_cases hc : h.current = CommState.COMMUNICATING
  · refine ⟨⟨[Action.waitRemoved evId], by simp [waitfor_communicating, hc]⟩,
      fun _ => ⟨?_, ?_, ?_⟩⟩
    · simp [waitfor_communicating, hc]
    · simp [waitfor_communicating, hc]
    · intro hfresh
      have herase : (h.waitEventList ++ [evId]).erase evId
          = h.waitEventList := by
        rw [List.erase_append_right _ hfresh]
        simp
      simp [waitfor_communicating, hc, herase]
  · exact ⟨⟨[Action.waitBlocked waitOutcome, Action.waitRemoved evId],
      by simp [waitfor_communicating, hc]⟩, fun hcc => absurd hcc hc⟩

/-- C2 amendment witness: calling on the concrete COMMUNICATING handler, the
trace is register-then-check, the call returns true at once with trace
register, check, remove, and the wait list is restored. -/
theorem claim_C2_witness :
    (∃ rest, (waitfor_communicating hComm 5 false).1.trace
        = hComm.trace ++ Action.waitAppended 5
            :: Action.commChecked
                (decide (hComm.current = CommState.COMMUNICATING))
            :: rest)
    ∧ ((waitfor_communicating hComm 5 false).2 = true
       ∧ (waitfor_communicating hComm 5 false).1.trace
          = hComm.trace ++ [Action.waitAppended 5, Action.commChecked true,
              Action.waitRemoved 5]
       ∧ (waitfor_communicating hComm 5 false).1.waitEventList
          = hComm.waitEventList) :=
  ⟨(claim_C2_amended hComm 5 false).1,
   ⟨((claim_C2_amended hComm 5 false).2 (by decide)).1,
    ((claim_C2_amended hComm 5 false).2 (by decide)).2.1,
    ((claim_C2_amended hComm 5 false).2 (by decide)).2.2 (by decide)⟩⟩

/-- C1 counterexample: the concrete WAIT_DELAY session, delivered an inbound
S1F13, stays in WAIT_DELAY with its retry-delay timer still live — the
dispatcher does not transition it to COMMUNICATING. -/
theorem claim_C1_counterexample :
    hWaitDelay.current = CommState.WAIT_DELAY
    ∧ (on_hsms_packet_received hWaitDelay pS1F13).current
        ≠ CommState.COMMUNICATING
    ∧ (on_hsms_packet_received hWaitDelay pS1F13).commDelayTimer
        = some ⟨10, false⟩ := by
  decide

/-- C1 amended: in WAIT_DELAY the dispatcher ignores an inbound S1F13
entirely, leaving the handler unchanged; the transition table itself does map
`s1f13received` fired in WAIT_DELAY to COMMUNICATING with the retry-delay
timer of the left state cancelled, but `_on_hsms_packet_received` never fires
that event in WAIT_DELAY. -/
theorem claim_C1_amended (h : GemHandler) (p : Packet)
    (hcur : h.current = CommState.WAIT_DELAY)
    (_hs : p.header.stream = 1) (_hf : p.header.function = 13) :
    on_hsms_packet_received h p = h
    ∧ (fireEvent h .s1f13received).current = CommState.COMMUNICATING
    ∧ timerDead (fireEvent h .s1f13received).commDelayTimer = true := by
  cases ht : h.commDelayTimer <;>
    simp [on_hsms_packet_received, hcur, ht, fireEvent, transitionDst,
      autoforwardDst, doTransition, leaveActions, enterActions, setCurrent,
      on_state_leave_wait_delay, on_state_communicating, fire_event, timerDead]

/-- C1 amendment witness: on the concrete WAIT_DELAY handler the dispatcher
is a no-op for S1F13 while the direct table transition reaches COMMUNICATING
with the delay timer cancelled. -/
theorem claim_C1_witness :
    (hWaitDelay.current = CommState.WAIT_DELAY
     ∧ pS1F13.header.stream = 1 ∧ pS1F13.header.function = 13)
    ∧ (on_hsms_packet_received hWaitDelay pS1F13 = hWaitDelay
       ∧ (fireEvent hWaitDelay .s1f13received).current = CommState.COMMUNICATING
       ∧ timerDead (fireEvent hWaitDelay .s1f13received).commDelayTimer = true) :=
  ⟨⟨by decide, by decide, by decide⟩,
   claim_C1_amended hWaitDelay pS1F13 (by decide) (by decide) (by decide)⟩

/-- The state reached by firing one event: the transition table's destination
when the event is valid (followed by one auto-forward when the destination is
transient), the unchanged state otherwise. -/
def nextState (s : CommState) (e : FEvent) : CommState :=
  match transitionDst s e with
  | none => s
  | some d =>
      match autoforwardDst d with
      | none => d
      | some d2 => d2

/-- The state reached from `s` by firing a sequence of events. -/
def runEvents (s : CommState) (es : List FEvent) : CommState :=
  es.foldl nextState s

/-- The current state after `fireEvent` is `nextState` of the previous current
state: entry and exit actions never touch the committed state value. -/
theorem fireEvent_current (h : GemHandler) (e : FEvent) :
    (fireEvent h e).current = nextState h.current e := by
  cases hc : h.current <;> cases e <;>
    cases ht : h.waitCRATimer <;> cases hd : h.commDelayTimer <;>
      simp [fireEvent, nextState, transitionDst, autoforwardDst, doTransition,
        leaveActions, enterActions, setCurrent, on_state_wait_cra,
        on_state_wait_delay, on_state_communicating, fire_event,
        on_state_leave_wait_cra, on_state_leave_wait_delay,
        send_stream_function, hc, ht, hd]

/-- Helper invariant for C10: preserved by every fired event, no state below
the host-initiated connect path is ever entered. -/
theorem runEvents_no_host_path (es : List FEvent) :
    ∀ s : CommState, s ≠ CommState.HOST_INITIATED_CONNECT →
      s ≠ CommState.WAIT_CR_FROM_HOST →
      runEvents s es ≠ CommState.HOST_INITIATED_CONNECT
      ∧ runEvents s es ≠ CommState.WAIT_CR_FROM_HOST := by
  induction es with
  | nil => intro s h1 h2; exact ⟨by simpa [runEvents] using h1,
      by simpa [runEvents] using h2⟩
  | cons e es ih =>
      intro s h1 h2
      have hstep : ∀ t : CommState, ∀ ev : FEvent,
          t ≠ CommState.HOST_INITIATED_CONNECT →
          t ≠ CommState.WAIT_CR_FROM_HOST →
          nextState t ev ≠ CommState.HOST_INITIATED_CONNECT
          ∧ nextState t ev ≠ CommState.WAIT_CR_FROM_HOST := by decide
      have h3 := hstep s e h1 h2
      simpa [runEvents] using ih (nextState s e) h3.1 h3.2

/-- C10: no row of the transition table has destination HOST_INITIATED_CONNECT,
and from the initial state DISABLED no sequence of fired events ever reaches
HOST_INITIATED_CONNECT or its auto-forward target WAIT_CR_FROM_HOST — in
particular the `s1f13received` row sourced at WAIT_CR_FROM_HOST can never
fire. -/
theorem claim_C10 :
    (∀ s : CommState, ∀ e : FEvent,
      transitionDst s e ≠ some CommState.HOST_INITIATED_CONNECT)
    ∧ ∀ es : List FEvent,
        runEvents CommState.DISABLED es ≠ CommState.HOST_INITIATED_CONNECT
        ∧ runEvents CommState.DISABLED es ≠ CommState.WAIT_CR_FROM_HOST := by
  refine ⟨by decide, fun es => runEvents_no_host_path es CommState.DISABLED
    (by decide) (by decide)⟩

/-- Exit actions only cancel timers: they append some actions to the trace
and leave the committed state, the wait list, the released events, the
notification log and the sent messages untouched. -/
theorem leaveActions_spec (h : GemHandler) :
    ∃ pre, (leaveActions h).trace = h.trace ++ pre
      ∧ (leaveActions h).current = h.current
      ∧ (leaveActions h).waitEventList = h.waitEventList
      ∧ (leaveActions h).setEvents = h.setEvents
      ∧ (leaveActions h).firedEvents = h.firedEvents
      ∧ (leaveActions h).sent = h.sent := by
  unfold leaveActions
  cases hc : h.current
  case WAIT_CRA =>
    unfold on_state_leave_wait_cra
    cases ht : h.waitCRATimer
    · exact ⟨[], by simp [hc]⟩
    · exact ⟨[Action.timerCancelled TimerRole.waitCRA], by simp [hc]⟩
  case WAIT_DELAY =>
    unfold on_state_leave_wait_delay
    cases hd : h.commDelayTimer
    · exact ⟨[], by simp [hc]⟩
    · exact ⟨[Action.timerCancelled TimerRole.commDelay], by simp [hc]⟩
  all_goals exact ⟨[], by simp [hc]⟩

/-- C7: every transition whose destination is COMMUNICATING runs the entry
action that first fires the `handler_communicating` observer notification and
then releases (sets) every wait entry registered at that moment, in that
order in the trace; every registered entry ends up released. -/
theorem claim_C7 (h : GemHandler) (e : FEvent)
    (ht : transitionDst h.current e = some CommState.COMMUNICATING) :
    ∃ pre,
      (fireEvent h e).trace
        = h.trace ++ pre
            ++ Action.eventFired "handler_communicating"
              :: h.waitEventList.map Action.eventSet
      ∧ (∀ evId ∈ h.waitEventList, evId ∈ (fireEvent h e).setEvents)
      ∧ "handler_communicating" ∈ (fireEvent h e).firedEvents := by
  obtain ⟨pre, htr, hcur, hwl, hse, hfe, hsent⟩ := leaveActions_spec h
  have hred : fireEvent h e
      = on_state_communicating
          (setCurrent (leaveActions h) CommState.COMMUNICATING) := by
    simp [fireEvent, ht, autoforwardDst, doTransition, enterActions]
  refine ⟨pre, ?_, ?_, ?_⟩
  · rw [hred]
    simp [on_state_communicating, fire_event, setCurrent, htr, hwl]
  · intro evId hm
    rw [hred]
    simp [on_state_communicating, fire_event, setCurrent, hse, hwl]
    exact Or.inr hm
  · rw [hred]
    simp [on_state_communicating, fire_event, setCurrent, hfe]

/-- C7 witness: a WAIT_CRA handler with one registered waiter receives S1F14;
the trace gains the timer cancellation, then the notification, then the
release of waiter 7, which is in the released set. -/
theorem claim_C7_witness :
    transitionDst { hWaitCRA with waitEventList := [7] }.current
        FEvent.s1f14received = some CommState.COMMUNICATING
    ∧ ∃ pre,
        (fireEvent { hWaitCRA with waitEventList := [7] }
            FEvent.s1f14received).trace
          = { hWaitCRA with waitEventList := [7] }.trace ++ pre
              ++ Action.eventFired "handler_communicating"
                :: ({ hWaitCRA with waitEventList := [7] } :
                      GemHandler).waitEventList.map Action.eventSet
        ∧ (∀ evId ∈ ({ hWaitCRA with waitEventList := [7] } :
              GemHandler).waitEventList,
            evId ∈ (fireEvent { hWaitCRA with waitEventList := [7] }
                FEvent.s1f14received).setEvents)
        ∧ "handler_communicating"
            ∈ (fireEvent { hWaitCRA with waitEventList := [7] }
                FEvent.s1f14received).firedEvents :=
  ⟨by decide,
   claim_C7 { hWaitCRA with waitEventList := [7] } FEvent.s1f14received
     (by decide)⟩

/-- The timer-liveness invariant of the spec's data model: a handshake timer
of a given role is live only while the state machine occupies the state that
owns it. -/
def TimerInv (h : GemHandler) : Prop :=
  (h.current ≠ CommState.WAIT_CRA → timerDead h.waitCRATimer = true)
  ∧ (h.current ≠ CommState.WAIT_DELAY → timerDead h.commDelayTimer = true)

/-- Exit actions kill the left state's timer (or find it already dead). -/
theorem leaveActions_waitCRATimer_dead (h : GemHandler)
    (hd : h.current = CommState.WAIT_CRA ∨ timerDead h.waitCRATimer = true) :
    timerDead (leaveActions h).waitCRATimer = true := by
  cases hc : h.current <;> cases ht : h.waitCRATimer <;>
    cases hct : h.commDelayTimer <;>
      simp_all [leaveActions, on_state_leave_wait_cra, on_state_leave_wait_delay,
        timerDead]

/-- Exit actions kill the left state's retry-delay timer (or find it already
dead). -/
theorem leaveActions_commDelayTimer_dead (h : GemHandler)
    (hd : h.current = CommState.WAIT_DELAY ∨ timerDead h.commDelayTimer = true) :
    timerDead (leaveActions h).commDelayTimer = true := by
  cases hc : h.current <;> cases ht : h.waitCRATimer <;>
    cases hct : h.commDelayTimer <;>
      simp_all [leaveActions, on_state_leave_wait_cra, on_state_leave_wait_delay,
        timerDead]

/-- Entering any state other than WAIT_CRA does not touch the handshake
timer. -/
theorem enterActions_waitCRATimer (h : GemHandler) (dst : CommState)
    (hne : dst ≠ CommState.WAIT_CRA) :
    (enterActions h dst).waitCRATimer = h.waitCRATimer := by
  cases dst <;> simp_all [enterActions, on_state_wait_delay,
    on_state_communicating, fire_event]

/-- Entering any state other than WAIT_DELAY does not touch the retry-delay
timer. -/
theorem enterActions_commDelayTimer (h : GemHandler) (dst : CommState)
    (hne : dst ≠ CommState.WAIT_DELAY) :
    (enterActions h dst).commDelayTimer = h.commDelayTimer := by
  cases dst <;> simp_all [enterActions, on_state_wait_cra,
    on_state_communicating, fire_event, send_stream_function]

/-- A committed transition lands on its destination state. -/
theorem doTransition_current (h : GemHandler) (dst : CommState) :
    (doTransition h dst).current = dst := by
  cases dst <;> simp [doTransition, enterActions, setCurrent, on_state_wait_cra,
    on_state_wait_delay, on_state_communicating, fire_event,
    send_stream_function]

/-- One committed transition preserves the timer-liveness invariant. -/
theorem timerInv_doTransition (h : GemHandler) (dst : CommState)
    (hi : TimerInv h) : TimerInv (doTransition h dst) := by
  obtain ⟨hw, hc⟩ := hi
  constructor
  · intro hne
    rw [doTransition_current] at hne
    have h1 : (doTransition h dst).waitCRATimer
        = (leaveActions h).waitCRATimer := by
      rw [doTransition, enterActions_waitCRATimer _ _ hne]
      simp [setCurrent]
    rw [h1]
    by_cases hcw : h.current = CommState.WAIT_CRA
    · exact leaveActions_waitCRATimer_dead h (Or.inl hcw)
    · exact leaveActions_waitCRATimer_dead h (Or.inr (hw hcw))
  · intro hne
    rw [doTransition_current] at hne
    have h1 : (doTransition h dst).commDelayTimer
        = (leaveActions h).commDelayTimer := by
      rw [doTransition, enterActions_commDelayTimer _ _ hne]
      simp [setCurrent]
    rw [h1]
    by_cases hcd : h.current = CommState.WAIT_DELAY
    · exact leaveActions_commDelayTimer_dead h (Or.inl hcd)
    · exact leaveActions_commDelayTimer_dead h (Or.inr (hc hcd))

/-- Firing any event preserves the timer-liveness invariant. -/
theorem timerInv_fireEvent (h : GemHandler) (e : FEvent) (hi : TimerInv h) :
    TimerInv (fireEvent h e) := by
  rw [fireEvent]
  cases htd : transitionDst h.current e
  · exact hi
  case some dst =>
    dsimp only
    cases haf : autoforwardDst dst
    · exact timerInv_doTransition h dst hi
    case some d2 =>
      exact timerInv_doTransition _ d2 (timerInv_doTransition h dst hi)

/-- Sending a correlated reply does not touch state or timers. -/
theorem timerInv_send_response (h : GemHandler) (s f : Nat) (b : Payload)
    (y : Nat) (hi : TimerInv h) : TimerInv (send_response h s f b y) := by
  simpa [TimerInv, send_response] using hi

/-- The dispatcher preserves the timer-liveness invariant. -/
theorem timerInv_packet (h : GemHandler) (p : Packet) (hi : TimerInv h) :
    TimerInv (on_hsms_packet_received h p) := by
  rw [on_hsms_packet_received]
  split_ifs <;>
    first
      | exact hi
      | exact timerInv_fireEvent _ _ hi

/-- `waitfor_communicating` preserves the timer-liveness invariant. -/
theorem timerInv_waitfor (h : GemHandler) (evId : Nat) (waitOutcome : Bool)
    (hi : TimerInv h) :
    TimerInv (waitfor_communicating h evId waitOutcome).1 := by
  rw [waitfor_communicating]
  split_ifs <;> simpa [TimerInv] using hi

/-- One externally triggered step of the handler: an event fired on the state
machine (`enable`, `disable`, the transport's select and connection-loss
notifications, the two timer callbacks), an inbound packet delivered to the
dispatcher, or a `waitfor_communicating` call. -/
inductive GStep : GemHandler → GemHandler → Prop where
  | fire (h : GemHandler) (e : FEvent) : GStep h (fireEvent h e)
  | packet (h : GemHandler) (p : Packet) : GStep h (on_hsms_packet_received h p)
  | waitfor (h : GemHandler) (evId : Nat) (waitOutcome : Bool) :
      GStep h (waitfor_communicating h evId waitOutcome).1

/-- Handler states reachable from a freshly constructed handler (any
configuration) by externally triggered steps. -/
inductive Reachable : GemHandler → Prop where
  | init (isHost : Bool) (T3 commDelayTimeout : Nat) (MDLN SOFTREV : String)
      (commackCode : Nat) :
      Reachable (initHandler isHost T3 commDelayTimeout MDLN SOFTREV commackCode)
  | step {h h' : GemHandler} : Reachable h → GStep h h' → Reachable h'

/-- Every reachable handler satisfies the timer-liveness invariant. -/
theorem reachable_timerInv {h : GemHandler} (hr : Reachable h) : TimerInv h := by
  induction hr with
  | init a b c d e f => exact ⟨fun _ => rfl, fun _ => rfl⟩
  | step hr hs ih =>
      cases hs with
      | fire e => exact timerInv_fireEvent _ e ih
      | packet p => exact timerInv_packet _ p ih
      | waitfor evId b => exact timerInv_waitfor _ evId b ih

/-- C5: from every reachable handler whose state machine is in an active
(non-DISABLED) state, firing `disable` lands on DISABLED, and afterwards
neither the handshake timer nor the retry-delay timer is live: the idempotent
exit action of the left state cancelled its timer and the other role's timer
was already dead. -/
theorem claim_C5 (h : GemHandler) (hr : Reachable h)
    (hne : h.current ≠ CommState.DISABLED) :
    (fireEvent h .disable).current = CommState.DISABLED
    ∧ timerDead (fireEvent h .disable).waitCRATimer = true
    ∧ timerDead (fireEvent h .disable).commDelayTimer = true := by
  obtain ⟨hw, hc⟩ := reachable_timerInv hr
  have htd : transitionDst h.current .disable = some CommState.DISABLED := by
    cases hcur : h.current <;> simp_all [transitionDst]
  have hred : fireEvent h .disable = doTransition h CommState.DISABLED := by
    rw [fireEvent, htd]
    rfl
  rw [hred]
  refine ⟨doTransition_current h _, ?_, ?_⟩
  · have h1 : (doTransition h CommState.DISABLED).waitCRATimer
        = (leaveActions h).waitCRATimer := by
      rw [doTransition, enterActions_waitCRATimer _ _ (by simp)]
      simp [setCurrent]
    rw [h1]
    by_cases hcw : h.current = CommState.WAIT_CRA
    · exact leaveActions_waitCRATimer_dead h (Or.inl hcw)
    · exact leaveActions_waitCRATimer_dead h (Or.inr (hw hcw))
  · have h1 : (doTransition h CommState.DISABLED).commDelayTimer
        = (leaveActions h).commDelayTimer := by
      rw [doTransition, enterActions_commDelayTimer _ _ (by simp)]
      simp [setCurrent]
    rw [h1]
    by_cases hcd : h.current = CommState.WAIT_DELAY
    · exact leaveActions_commDelayTimer_dead h (Or.inl hcd)
    · exact leaveActions_commDelayTimer_dead h (Or.inr (hc hcd))

/-- The concrete WAIT_DELAY handler is reachable: construct, `enable`, select,
handshake timeout. -/
theorem reachable_hWaitDelay : Reachable hWaitDelay :=
  Reachable.step
    (Reachable.step
      (Reachable.step (Reachable.init true 3 10 "secsgem" "0.0.3" 0)
        (GStep.fire hDisabled .enable))
      (GStep.fire hNotComm .select))
    (GStep.fire hWaitCRA .communicationreqfail)

/-- C5 witness: disabling the reachable WAIT_DELAY handler (whose retry-delay
timer is live) lands on DISABLED with both timers dead. -/
theorem claim_C5_witness :
    (Reachable hWaitDelay ∧ hWaitDelay.current ≠ CommState.DISABLED)
    ∧ ((fireEvent hWaitDelay .disable).current = CommState.DISABLED
       ∧ timerDead (fireEvent hWaitDelay .disable).waitCRATimer = true
       ∧ timerDead (fireEvent hWaitDelay .disable).commDelayTimer = true) :=
  ⟨⟨reachable_hWaitDelay, by decide⟩,
   claim_C5 hWaitDelay reachable_hWaitDelay (by decide)⟩

end Secsgem
